import Mathlib

/-!
Verification of the PDF image-inventory tool (`cmder/main.go`).

The program walks each page of a PDF, resolves the page's Resources
dictionary, descends into the XObject sub-dictionary, classifies each
indirectly referenced entry as an image stream or not, and extracts
metadata (geometry, colorspace, bits per component, filter chain, raw
byte size) into flat `ImageInfo` records.

The underlying pdfcpu Document Model (page lookup, object dereferencing)
is external to the repository; it is modelled here as an abstract
`Context` of pure lookup functions, exactly the interface the source
consumes (`PageCount`, `PageDict`, `Dereference`,
`DereferenceXObjectDict`).  The dictionary accessors (`Find`,
`IntEntry`, `NameEntry`, `ArrayEntry`) and the `Image` subtype test are
given concrete executable models matching their documented behaviour.
-/

/-- A PDF object value, as discriminated by the Go type assertions in
`main.go`: dictionaries (`types.Dict`), indirect references
(`types.IndirectRef`, carrying object and generation numbers), names
(`types.Name`), integers (`types.Integer`), arrays (`types.Array`), and
a catch-all for every other object kind the program never inspects. -/
inductive Obj where
  | dict (entries : List (String × Obj)) : Obj
  | indirectRef (objectNumber generationNumber : Int) : Obj
  | name (s : String) : Obj
  | int (i : Int) : Obj
  | array (elems : List Obj) : Obj
  | other : Obj
deriving Repr

/-- A PDF dictionary: named entries in document-defined order
(Go `types.Dict`). -/
abbrev Dict := List (String × Obj)

/-- `Dict.Find` of the Document Model: look a key up in a dictionary. -/
def dictFind (d : Dict) (k : String) : Option Obj :=
  match d with
  | [] => none
  | (key, v) :: rest => if key = k then some v else dictFind rest k

/-- `Dict.IntEntry`: the value at a key when it is an integer, else none. -/
def dictIntEntry (d : Dict) (k : String) : Option Int :=
  match dictFind d k with
  | some (Obj.int i) => some i
  | _ => none

/-- `Dict.NameEntry`: the value at a key when it is a name, else none. -/
def dictNameEntry (d : Dict) (k : String) : Option String :=
  match dictFind d k with
  | some (Obj.name s) => some s
  | _ => none

/-- `Dict.ArrayEntry`: the value at a key when it is an array, else none
(Go returns a nil slice in that case, observed only through `len`). -/
def dictArrayEntry (d : Dict) (k : String) : Option (List Obj) :=
  match dictFind d k with
  | some (Obj.array a) => some a
  | _ => none

/-- One entry of a stream's filter pipeline (pdfcpu `types.PDFFilter`):
the program reads only the filter's name. -/
structure PDFFilter where
  name : String
deriving DecidableEq, Repr

/-- A PDF stream dictionary (pdfcpu `types.StreamDict`): its dictionary,
its stored still-encoded raw bytes, and its ordered filter pipeline. -/
structure StreamDict where
  dict : Dict
  raw : List Nat
  filterPipeline : List PDFFilter

/-- The image-subtype test (pdfcpu `StreamDict.Image`, external to the
repository): the stream's dictionary has a name-valued `Subtype` entry
equal to `Image`. -/
def StreamDict.image (sd : StreamDict) : Bool :=
  match dictNameEntry sd.dict "Subtype" with
  | some s => s = "Image"
  | none => false

/-- The Document Model interface the core consumes (`model.Context` /
`XRefTable` of pdfcpu, external collaborator): declared page count, page
dictionary lookup, generic dereference, and dereference-to-XObject
stream dictionary.  Fallible operations return `Except`. -/
structure Context where
  pageCount : Int
  pageDict : Int → Except String Dict
  dereference : Int → Int → Except String Obj
  dereferenceXObjectDict : Int → Int → Except String StreamDict

/-- The flat record reported per image (Go `ImageInfo`). -/
structure ImageInfo where
  PageNr : Int
  ObjectNr : Int
  GenNr : Int
  Name : String
  Width : Int
  Height : Int
  ColorSpace : String
  BitsPerComp : Int
  Filter : String
  Size : Int
deriving DecidableEq, Repr

/-- `extractImageInfo` of `main.go`: builds an `ImageInfo` from a
confirmed image stream.  Identity fields and `Size` are set
unconditionally; `Width`, `Height`, `ColorSpace`, `BitsPerComp` and
`Filter` start at their zero values and are overwritten only when the
corresponding stream field is present with the expected shape. -/
def extractImageInfo (pageNr : Int) (name : String) (objNr genNr : Int)
    (sd : StreamDict) : ImageInfo :=
  let imgInfo : ImageInfo :=
    { PageNr := pageNr, ObjectNr := objNr, GenNr := genNr, Name := name,
      Width := 0, Height := 0, ColorSpace := "", BitsPerComp := 0,
      Filter := "", Size := (sd.raw.length : Int) }
  let imgInfo := match dictIntEntry sd.dict "Width" with
    | some w => { imgInfo with Width := w }
    | none => imgInfo
  let imgInfo := match dictIntEntry sd.dict "Height" with
    | some h => { imgInfo with Height := h }
    | none => imgInfo
  let imgInfo := match dictNameEntry sd.dict "ColorSpace" with
    | some cs => { imgInfo with ColorSpace := cs }
    | none => match dictArrayEntry sd.dict "ColorSpace" with
      | some (Obj.name csName :: _) => { imgInfo with ColorSpace := csName }
      | _ => imgInfo
  let imgInfo := match dictIntEntry sd.dict "BitsPerComponent" with
    | some bpc => { imgInfo with BitsPerComp := bpc }
    | none => imgInfo
  let imgInfo :=
    if sd.filterPipeline.length > 0 then
      { imgInfo with
        Filter := String.intercalate ", " (sd.filterPipeline.map PDFFilter.name) }
    else imgInfo
  imgInfo

/-- The shared direct/indirect/absent resolution used (twice, by
copy-paste) in `extractImagesFromPage` for the Resources value and for
the XObject value: a dictionary is used as-is; an indirect reference is
dereferenced once and used only if the result is a dictionary; anything
else degrades to `none` (the Go code then returns the empty record
list with a nil error). -/
def resolveToDict (ctx : Context) (obj : Obj) : Option Dict :=
  match obj with
  | Obj.dict d => some d
  | Obj.indirectRef o g =>
    match ctx.dereference o g with
    | Except.ok (Obj.dict d) => some d
    | _ => none
  | _ => none

/-- The XObject iteration loop of `extractImagesFromPage`: for each
entry, skip it unless its value is an indirect reference that
dereferences to an XObject stream dictionary passing the image test;
otherwise emit one record via `extractImageInfo`. -/
def loopXObjects (ctx : Context) (pageNr : Int) :
    List (String × Obj) → List ImageInfo
  | [] => []
  | (name, obj) :: rest =>
    match obj with
    | Obj.indirectRef o g =>
      match ctx.dereferenceXObjectDict o g with
      | Except.error _ => loopXObjects ctx pageNr rest
      | Except.ok xObjDict =>
        if xObjDict.image then
          extractImageInfo pageNr name o g xObjDict :: loopXObjects ctx pageNr rest
        else
          loopXObjects ctx pageNr rest
    | _ => loopXObjects ctx pageNr rest

/-- `extractImagesFromPage` of `main.go`: page-dictionary failure is the
only error path; absence or wrong shape of Resources/XObject returns the
empty list with a nil error; otherwise the XObject entries are scanned. -/
def extractImagesFromPage (ctx : Context) (pageNr : Int) :
    Except String (List ImageInfo) :=
  match ctx.pageDict pageNr with
  | Except.error e => Except.error ("failed to get page dict: " ++ e)
  | Except.ok pageDict =>
    match dictFind pageDict "Resources" with
    | none => Except.ok []
    | some resources =>
      match resolveToDict ctx resources with
      | none => Except.ok []
      | some resDict =>
        match dictFind resDict "XObject" with
        | none => Except.ok []
        | some xObjectVal =>
          match resolveToDict ctx xObjectVal with
          | none => Except.ok []
          | some xObject => Except.ok (loopXObjects ctx pageNr xObject)

/-- The page loop of `extractAllImages`: starting at page `pageNr`, runs
`extractImagesFromPage` for the given number of remaining pages,
wrapping any failure with the failing page number and aborting. -/
def scanPages (ctx : Context) (pageNr : Int) :
    Nat → Except String (List (List ImageInfo))
  | 0 => Except.ok []
  | Nat.succ n =>
    match extractImagesFromPage ctx pageNr with
    | Except.error e =>
      Except.error ("failed to extract images from page " ++ toString pageNr ++ ": " ++ e)
    | Except.ok images =>
      match scanPages ctx (pageNr + 1) n with
      | Except.error e => Except.error e
      | Except.ok rest => Except.ok (images :: rest)

/-- `extractAllImages` of `main.go`, restricted to its observable output
(the ordered per-page record lists; printing is presentation only): a
zero page count fails fast, otherwise pages 1..pageCount are scanned in
order. -/
def extractAllImages (ctx : Context) : Except String (List (List ImageInfo)) :=
  if ctx.pageCount = 0 then Except.error "PDF has no pages"
  else scanPages ctx 1 ctx.pageCount.toNat

/-- The running total accumulated by `extractAllImages`: each page adds
its record count, guarded (as in the source) by a non-emptiness test. -/
def totalImages (pages : List (List ImageInfo)) : Nat :=
  pages.foldl (fun acc images => if images.length > 0 then acc + images.length else acc) 0

/-- The resolution chain of `extractImagesFromPage` up to the XObject
dictionary, as one partial lookup: the page dictionary's Resources value
resolved to a dictionary, its XObject value resolved to a dictionary. -/
def resolvedXObjectDict (ctx : Context) (pageNr : Int) : Option Dict :=
  match ctx.pageDict pageNr with
  | Except.error _ => none
  | Except.ok pageDict =>
    match dictFind pageDict "Resources" with
    | none => none
    | some resources =>
      match resolveToDict ctx resources with
      | none => none
      | some resDict =>
        match dictFind resDict "XObject" with
        | none => none
        | some xObjectVal => resolveToDict ctx xObjectVal

/-- The per-entry classification predicate of the XObject loop: the
entry's value is an indirect reference, it dereferences to an XObject
stream dictionary, and that stream passes the image-subtype test. -/
def imageEntryTest (ctx : Context) (obj : Obj) : Bool :=
  match obj with
  | Obj.indirectRef o g =>
    match ctx.dereferenceXObjectDict o g with
    | Except.ok sd => sd.image
    | Except.error _ => false
  | _ => false

def sdImage : StreamDict :=
  { dict := [("Subtype", Obj.name "Image"), ("Width", Obj.int 8), ("Height", Obj.int 4),
             ("ColorSpace", Obj.name "DeviceRGB"), ("BitsPerComponent", Obj.int 8)],
    raw := [10, 20, 30], filterPipeline := [{ name := "DCTDecode" }] }

def sdForm : StreamDict :=
  { dict := [("Subtype", Obj.name "Form")], raw := [], filterPipeline := [] }

def xObjA : Dict := [("Im1", Obj.indirectRef 5 0), ("Fm1", Obj.indirectRef 6 0), ("Bad", Obj.int 3)]

def pageA : Dict := [("Resources", Obj.dict [("XObject", Obj.dict xObjA)])]

def ctxA : Context :=
  { pageCount := 1,
    pageDict := fun n => if n = 1 then Except.ok pageA else Except.error "page not found",
    dereference := fun _ _ => Except.error "dangling",
    dereferenceXObjectDict := fun o _ =>
      if o = 5 then Except.ok sdImage
      else if o = 6 then Except.ok sdForm
      else Except.error "not an xobject stream" }

def pageNoResources : Dict := [("MediaBox", Obj.array [])]

def ctxNoResources : Context :=
  { pageCount := 1,
    pageDict := fun n => if n = 1 then Except.ok pageNoResources else Except.error "page not found",
    dereference := fun _ _ => Except.error "dangling",
    dereferenceXObjectDict := fun _ _ => Except.error "not an xobject stream" }

def sdIndexed : StreamDict :=
  { dict := [("Subtype", Obj.name "Image"),
             ("ColorSpace", Obj.array [Obj.name "Indexed", Obj.name "DeviceRGB",
                                       Obj.int 255, Obj.indirectRef 9 0])],
    raw := [1], filterPipeline := [] }

def sdTwoFilters : StreamDict :=
  { dict := [("Subtype", Obj.name "Image")],
    raw := [1, 2],
    filterPipeline := [{ name := "ASCII85Decode" }, { name := "DCTDecode" }] }

def sdEmpty : StreamDict := { dict := [], raw := [], filterPipeline := [] }

def ctxFail : Context :=
  { pageCount := 3,
    pageDict := fun n => if n = 1 then Except.ok pageNoResources else Except.error "boom",
    dereference := fun _ _ => Except.error "dangling",
    dereferenceXObjectDict := fun _ _ => Except.error "not an xobject stream" }

def ctxZero : Context :=
  { pageCount := 0,
    pageDict := fun _ => Except.ok pageA,
    dereference := fun _ _ => Except.error "dangling",
    dereferenceXObjectDict := fun _ _ => Except.error "not an xobject stream" }

theorem extractImageInfo_spec (p : Int) (nm : String) (o g : Int) (sd : StreamDict) :
    extractImageInfo p nm o g sd =
      { PageNr := p, ObjectNr := o, GenNr := g, Name := nm,
        Width := (dictIntEntry sd.dict "Width").getD 0,
        Height := (dictIntEntry sd.dict "Height").getD 0,
        ColorSpace := (match dictNameEntry sd.dict "ColorSpace" with
          | some cs => cs
          | none => match dictArrayEntry sd.dict "ColorSpace" with
            | some (Obj.name csName :: _) => csName
            | _ => ""),
        BitsPerComp := (dictIntEntry sd.dict "BitsPerComponent").getD 0,
        Filter := if sd.filterPipeline.length > 0 then
            String.intercalate ", " (sd.filterPipeline.map PDFFilter.name) else "",
        Size := (sd.raw.length : Int) } := by
  unfold extractImageInfo
  repeat' split <;> try (first | rfl | simp_all)

theorem loopXObjects_length (ctx : Context) (p : Int) (entries : List (String × Obj)) :
    (loopXObjects ctx p entries).length =
    (entries.filter fun e => imageEntryTest ctx e.2).length := by
  induction entries with
  | nil => rfl
  | cons e rest ih =>
    obtain ⟨nm, obj⟩ := e
    rw [List.filter_cons]
    cases obj with
    | dict d => simp [loopXObjects, imageEntryTest, ih]
    | name s => simp [loopXObjects, imageEntryTest, ih]
    | int i => simp [loopXObjects, imageEntryTest, ih]
    | array a => simp [loopXObjects, imageEntryTest, ih]
    | other => simp [loopXObjects, imageEntryTest, ih]
    | indirectRef o g =>
      cases hd : ctx.dereferenceXObjectDict o g with
      | error err => simp [loopXObjects, imageEntryTest, hd, ih]
      | ok sd => cases hi : sd.image <;> simp [loopXObjects, imageEntryTest, hd, hi, ih]

theorem extractImagesFromPage_ok (ctx : Context) (p : Int) (xd : Dict)
    (h : resolvedXObjectDict ctx p = some xd) :
    extractImagesFromPage ctx p = Except.ok (loopXObjects ctx p xd) := by
  unfold resolvedXObjectDict at h
  unfold extractImagesFromPage
  cases hpd : ctx.pageDict p with
  | error e => simp [hpd] at h
  | ok pd =>
    simp only [hpd] at h ⊢
    cases hr : dictFind pd "Resources" with
    | none => simp [hr] at h
    | some r =>
      simp only [hr] at h ⊢
      cases hrd : resolveToDict ctx r with
      | none => simp [hrd] at h
      | some rd =>
        simp only [hrd] at h ⊢
        cases hx : dictFind rd "XObject" with
        | none => simp [hx] at h
        | some xv =>
          simp only [hx] at h ⊢
          simp [h]

/-- C1: for every page whose Resources/XObject chain resolves, the record
list returned for the page has exactly one record per XObject entry whose
value is an indirect reference that dereferences to a stream dictionary
passing the image-subtype test — no more, no fewer. -/
theorem records_per_page_match_image_entries (ctx : Context) (pageNr : Int) (xd : Dict)
    (h : resolvedXObjectDict ctx pageNr = some xd) :
    ∃ images, extractImagesFromPage ctx pageNr = Except.ok images ∧
      images.length = (xd.filter fun e => imageEntryTest ctx e.2).length :=
  ⟨loopXObjects ctx pageNr xd, extractImagesFromPage_ok ctx pageNr xd h,
    loopXObjects_length ctx pageNr xd⟩

theorem records_per_page_match_image_entries_witness :
    resolvedXObjectDict ctxA 1 = some xObjA ∧
    ∃ images, extractImagesFromPage ctxA 1 = Except.ok images ∧
      images.length = (xObjA.filter fun e => imageEntryTest ctxA e.2).length :=
  ⟨rfl, records_per_page_match_image_entries ctxA 1 xObjA rfl⟩

/-- C2: a page whose Resources entry is absent, wrong-typed, or an
indirect reference that fails to resolve to a dictionary — and likewise a
page whose resolved Resources dictionary has an absent or
non-dictionary-resolving XObject entry — yields exactly zero records and
no error. -/
theorem soft_resolution_failures_yield_zero_records (ctx : Context) (pageNr : Int)
    (pd : Dict) (hpd : ctx.pageDict pageNr = Except.ok pd)
    (h : dictFind pd "Resources" = none ∨
      (∃ r, dictFind pd "Resources" = some r ∧ resolveToDict ctx r = none) ∨
      (∃ r rd, dictFind pd "Resources" = some r ∧ resolveToDict ctx r = some rd ∧
        (dictFind rd "XObject" = none ∨
          ∃ x, dictFind rd "XObject" = some x ∧ resolveToDict ctx x = none))) :
    extractImagesFromPage ctx pageNr = Except.ok [] := by
  unfold extractImagesFromPage
  rcases h with h | ⟨r, hr, hrn⟩ | ⟨r, rd, hr, hrd, h⟩
  · simp [hpd, h]
  · simp [hpd, hr, hrn]
  · rcases h with h | ⟨x, hx, hxn⟩
    · simp [hpd, hr, hrd, h]
    · simp [hpd, hr, hrd, hx, hxn]

theorem soft_resolution_failures_yield_zero_records_witness :
    ctxNoResources.pageDict 1 = Except.ok pageNoResources ∧
    extractImagesFromPage ctxNoResources 1 = Except.ok [] :=
  ⟨rfl, soft_resolution_failures_yield_zero_records ctxNoResources 1 pageNoResources rfl
    (Or.inl rfl)⟩

/-- C3: an XObject entry whose value is not an indirect reference is
skipped by the scanning loop and contributes no record. -/
theorem direct_valued_entries_skipped (ctx : Context) (pageNr : Int) (nm : String)
    (obj : Obj) (rest : List (String × Obj))
    (h : ∀ o g, obj ≠ Obj.indirectRef o g) :
    loopXObjects ctx pageNr ((nm, obj) :: rest) = loopXObjects ctx pageNr rest := by
  cases obj with
  | indirectRef o g => exact absurd rfl (h o g)
  | dict d => rfl
  | name s => rfl
  | int i => rfl
  | array a => rfl
  | other => rfl

theorem direct_valued_entries_skipped_witness :
    loopXObjects ctxA 1 [("Bad", Obj.int 3), ("Im1", Obj.indirectRef 5 0)] =
      loopXObjects ctxA 1 [("Im1", Obj.indirectRef 5 0)] :=
  direct_valued_entries_skipped ctxA 1 "Bad" (Obj.int 3) [("Im1", Obj.indirectRef 5 0)]
    (fun o g h => Obj.noConfusion h)

/-- C4: colorspace extraction prefers a direct name-valued ColorSpace
entry; failing that it takes the first element of an array-valued
ColorSpace entry only when that element is itself a name; any other
shape leaves the colorspace unset.  In particular `/DeviceRGB` yields
`DeviceRGB` and `[/Indexed /DeviceRGB 255 ref]` yields `Indexed`. -/
theorem colorspace_extraction_preference :
    (∀ (p : Int) (nm : String) (o g : Int) (sd : StreamDict) (cs : String),
      dictNameEntry sd.dict "ColorSpace" = some cs →
      (extractImageInfo p nm o g sd).ColorSpace = cs) ∧
    (∀ (p : Int) (nm : String) (o g : Int) (sd : StreamDict) (csName : String)
      (rest : List Obj),
      dictNameEntry sd.dict "ColorSpace" = none →
      dictArrayEntry sd.dict "ColorSpace" = some (Obj.name csName :: rest) →
      (extractImageInfo p nm o g sd).ColorSpace = csName) ∧
    (∀ (p : Int) (nm : String) (o g : Int) (sd : StreamDict),
      dictNameEntry sd.dict "ColorSpace" = none →
      (∀ (csName : String) (rest : List Obj),
        dictArrayEntry sd.dict "ColorSpace" ≠ some (Obj.name csName :: rest)) →
      (extractImageInfo p nm o g sd).ColorSpace = "") ∧
    (extractImageInfo 1 "Im1" 5 0 sdImage).ColorSpace = "DeviceRGB" ∧
    (extractImageInfo 1 "Im2" 7 0 sdIndexed).ColorSpace = "Indexed" := by
  refine ⟨?_, ?_, ?_, rfl, rfl⟩
  · intro p nm o g sd cs hcs
    rw [extractImageInfo_spec]
    simp [hcs]
  · intro p nm o g sd csName rest hn ha
    rw [extractImageInfo_spec]
    simp [hn, ha]
  · intro p nm o g sd hn ha
    rw [extractImageInfo_spec]
    simp only [hn]

theorem colorspace_extraction_preference_witness :
    (extractImageInfo 1 "Im1" 5 0 sdImage).ColorSpace = "DeviceRGB" :=
  colorspace_extraction_preference.1 1 "Im1" 5 0 sdImage "DeviceRGB" rfl

/-- C5: the extracted filter chain lists each filter's name in the
stream's stored (applied) order, joined as a comma-separated string,
empty when the stream has no filters; in particular
`[ASCII85Decode, DCTDecode]` renders as `"ASCII85Decode, DCTDecode"`. -/
theorem filter_chain_order_and_rendering :
    (∀ (p : Int) (nm : String) (o g : Int) (sd : StreamDict),
      (extractImageInfo p nm o g sd).Filter =
        String.intercalate ", " (sd.filterPipeline.map PDFFilter.name)) ∧
    (extractImageInfo 1 "Im3" 8 0 sdTwoFilters).Filter = "ASCII85Decode, DCTDecode" ∧
    (extractImageInfo 1 "Im4" 9 0 sdEmpty).Filter = "" := by
  refine ⟨?_, rfl, rfl⟩
  intro p nm o g sd
  rw [extractImageInfo_spec]
  cases h : sd.filterPipeline with
  | nil => simp [h, String.intercalate]
  | cons f fs => simp [h]

/-- C6: the metadata extractor is total on confirmed image streams —
every stream yields a record (the Lean function is total, mirroring the
Go function's lack of any failure path) — and each individually missing
field leaves the corresponding record field at its zero/empty default
instead of failing or dropping the record. -/
theorem extractor_total_with_defaults :
    (∀ (p : Int) (nm : String) (o g : Int) (sd : StreamDict),
      dictIntEntry sd.dict "Width" = none → (extractImageInfo p nm o g sd).Width = 0) ∧
    (∀ (p : Int) (nm : String) (o g : Int) (sd : StreamDict),
      dictIntEntry sd.dict "Height" = none → (extractImageInfo p nm o g sd).Height = 0) ∧
    (∀ (p : Int) (nm : String) (o g : Int) (sd : StreamDict),
      dictNameEntry sd.dict "ColorSpace" = none →
      dictArrayEntry sd.dict "ColorSpace" = none →
      (extractImageInfo p nm o g sd).ColorSpace = "") ∧
    (∀ (p : Int) (nm : String) (o g : Int) (sd : StreamDict),
      dictIntEntry sd.dict "BitsPerComponent" = none →
      (extractImageInfo p nm o g sd).BitsPerComp = 0) ∧
    (∀ (p : Int) (nm : String) (o g : Int) (sd : StreamDict),
      sd.filterPipeline = [] → (extractImageInfo p nm o g sd).Filter = "") := by
  refine ⟨?_, ?_, ?_, ?_, ?_⟩ <;> intro p nm o g sd h <;> rw [extractImageInfo_spec]
  · simp [h]
  · simp [h]
  · intro ha
    simp [h, ha]
  · simp [h]
  · simp [h]

theorem extractor_total_with_defaults_witness :
    (extractImageInfo 2 "Im9" 11 0 sdEmpty).Width = 0 ∧
    (extractImageInfo 2 "Im9" 11 0 sdEmpty).Height = 0 ∧
    (extractImageInfo 2 "Im9" 11 0 sdEmpty).ColorSpace = "" ∧
    (extractImageInfo 2 "Im9" 11 0 sdEmpty).BitsPerComp = 0 ∧
    (extractImageInfo 2 "Im9" 11 0 sdEmpty).Filter = "" :=
  ⟨extractor_total_with_defaults.1 2 "Im9" 11 0 sdEmpty rfl,
   extractor_total_with_defaults.2.1 2 "Im9" 11 0 sdEmpty rfl,
   extractor_total_with_defaults.2.2.1 2 "Im9" 11 0 sdEmpty rfl rfl,
   extractor_total_with_defaults.2.2.2.1 2 "Im9" 11 0 sdEmpty rfl,
   extractor_total_with_defaults.2.2.2.2 2 "Im9" 11 0 sdEmpty rfl⟩

theorem scanPages_error_at (ctx : Context) (k : Int) (e : String)
    (hfail : ctx.pageDict k = Except.error e) :
    ∀ (n : Nat) (start : Int), start ≤ k → k < start + (n : Int) →
      (∀ j, start ≤ j → j < k → ∃ imgs, extractImagesFromPage ctx j = Except.ok imgs) →
      scanPages ctx start n =
        Except.error ("failed to extract images from page " ++ toString k ++ ": " ++
          ("failed to get page dict: " ++ e)) := by
  intro n
  induction n with
  | zero => intro start h1 h2 _; exfalso; omega
  | succ n ih =>
    intro start h1 h2 hok
    by_cases hs : start = k
    · subst hs
      have hfp : extractImagesFromPage ctx start =
          Except.error ("failed to get page dict: " ++ e) := by
        unfold extractImagesFromPage
        rw [hfail]
      simp only [scanPages, hfp]
    · have hlt : start < k := lt_of_le_of_ne h1 hs
      obtain ⟨imgs, himgs⟩ := hok start le_rfl hlt
      have hrec := ih (start + 1) (by omega) (by push_cast at h2 ⊢; omega)
        (fun j hj1 hj2 => hok j (by omega) hj2)
      simp only [scanPages, himgs, hrec]

/-- C7: if the Document Model fails to produce the page dictionary for a
page in range (all earlier pages scanning cleanly), the failure is
propagated to the caller with the page number attached as context and
the whole scan aborts with that error. -/
theorem page_dict_failure_propagates_and_aborts (ctx : Context) (k : Int) (e : String)
    (h1 : 1 ≤ k) (h2 : k ≤ ctx.pageCount)
    (hok : ∀ j, 1 ≤ j → j < k → ∃ imgs, extractImagesFromPage ctx j = Except.ok imgs)
    (hfail : ctx.pageDict k = Except.error e) :
    extractAllImages ctx =
      Except.error ("failed to extract images from page " ++ toString k ++ ": " ++
        ("failed to get page dict: " ++ e)) := by
  unfold extractAllImages
  rw [if_neg (by omega : ¬ ctx.pageCount = 0)]
  exact scanPages_error_at ctx k e hfail ctx.pageCount.toNat 1 h1 (by omega) hok

theorem page_dict_failure_propagates_and_aborts_witness :
    extractAllImages ctxFail =
      Except.error "failed to extract images from page 2: failed to get page dict: boom" := by
  have h := page_dict_failure_propagates_and_aborts ctxFail 2 "boom" (by decide) (by decide)
    (fun j hj1 hj2 => ⟨[], by
      have hj : j = 1 := by omega
      subst hj
      rfl⟩)
    rfl
  exact h.trans (congrArg Except.error (by decide))

/-- C8: a declared page count of zero makes the scan fail fast with an
error, before any page is consulted and with no partial output. -/
theorem zero_pages_fails_fast (ctx : Context) (h : ctx.pageCount = 0) :
    extractAllImages ctx = Except.error "PDF has no pages" := by
  unfold extractAllImages
  rw [if_pos h]

theorem zero_pages_fails_fast_witness :
    ctxZero.pageCount = 0 ∧ extractAllImages ctxZero = Except.error "PDF has no pages" :=
  ⟨rfl, zero_pages_fails_fast ctxZero rfl⟩

theorem totalImages_foldl (acc : Nat) (pages : List (List ImageInfo)) :
    pages.foldl (fun acc images => if images.length > 0 then acc + images.length else acc) acc
      = acc + (pages.map List.length).sum := by
  induction pages generalizing acc with
  | nil => simp
  | cons p ps ih =>
    simp only [List.foldl_cons, List.map_cons, List.sum_cons]
    by_cases h : p.length > 0
    · rw [if_pos h, ih]; omega
    · rw [if_neg h, ih]; omega

/-- C9: the reported total image count equals the sum over all pages of
the per-page record counts, and the scan is deterministic: it is a pure
function of the document, so two runs yield identical results. -/
theorem total_count_additive_and_deterministic :
    (∀ (ctx : Context) (pages : List (List ImageInfo)),
      extractAllImages ctx = Except.ok pages →
      totalImages pages = (pages.map List.length).sum) ∧
    (∀ ctx : Context, extractAllImages ctx = extractAllImages ctx) := by
  constructor
  · intro ctx pages _
    unfold totalImages
    simpa using totalImages_foldl 0 pages
  · intro ctx
    rfl

theorem total_count_additive_and_deterministic_witness :
    extractAllImages ctxA = Except.ok [[extractImageInfo 1 "Im1" 5 0 sdImage]] ∧
    totalImages [[extractImageInfo 1 "Im1" 5 0 sdImage]] =
      ([[extractImageInfo 1 "Im1" 5 0 sdImage]].map List.length).sum :=
  ⟨rfl, total_count_additive_and_deterministic.1 ctxA [[extractImageInfo 1 "Im1" 5 0 sdImage]] rfl⟩

theorem loopXObjects_mem (ctx : Context) (p : Int) (entries : List (String × Obj))
    (img : ImageInfo) (hmem : img ∈ loopXObjects ctx p entries) :
    img.PageNr = p ∧ ∃ o g sd, (img.Name, Obj.indirectRef o g) ∈ entries ∧
      img.ObjectNr = o ∧ img.GenNr = g ∧
      ctx.dereferenceXObjectDict o g = Except.ok sd ∧ sd.image = true ∧
      img.Size = (sd.raw.length : Int) := by
  induction entries with
  | nil => simp [loopXObjects] at hmem
  | cons epair rest ih =>
    obtain ⟨nm, obj⟩ := epair
    cases obj with
    | dict d =>
      obtain ⟨h1, o, g, sd, hm, hrest⟩ := ih (by simpa [loopXObjects] using hmem)
      exact ⟨h1, o, g, sd, List.mem_cons_of_mem _ hm, hrest⟩
    | name s =>
      obtain ⟨h1, o, g, sd, hm, hrest⟩ := ih (by simpa [loopXObjects] using hmem)
      exact ⟨h1, o, g, sd, List.mem_cons_of_mem _ hm, hrest⟩
    | int i =>
      obtain ⟨h1, o, g, sd, hm, hrest⟩ := ih (by simpa [loopXObjects] using hmem)
      exact ⟨h1, o, g, sd, List.mem_cons_of_mem _ hm, hrest⟩
    | array a =>
      obtain ⟨h1, o, g, sd, hm, hrest⟩ := ih (by simpa [loopXObjects] using hmem)
      exact ⟨h1, o, g, sd, List.mem_cons_of_mem _ hm, hrest⟩
    | other =>
      obtain ⟨h1, o, g, sd, hm, hrest⟩ := ih (by simpa [loopXObjects] using hmem)
      exact ⟨h1, o, g, sd, List.mem_cons_of_mem _ hm, hrest⟩
    | indirectRef o g =>
      cases hd : ctx.dereferenceXObjectDict o g with
      | error err =>
        simp only [loopXObjects, hd] at hmem
        obtain ⟨h1, o2, g2, sd, hm, hrest⟩ := ih hmem
        exact ⟨h1, o2, g2, sd, List.mem_cons_of_mem _ hm, hrest⟩
      | ok sd =>
        cases hi : sd.image with
        | false =>
          simp only [loopXObjects, hd, hi, Bool.false_eq_true, if_false] at hmem
          obtain ⟨h1, o2, g2, sd2, hm, hrest⟩ := ih hmem
          exact ⟨h1, o2, g2, sd2, List.mem_cons_of_mem _ hm, hrest⟩
        | true =>
          simp only [loopXObjects, hd, hi, if_true] at hmem
          rcases List.mem_cons.mp hmem with heq | hmem2
          · subst heq
            rw [extractImageInfo_spec]
            exact ⟨rfl, o, g, sd, List.mem_cons_self _ _, rfl, rfl, hd, hi, rfl⟩
          · obtain ⟨h1, o2, g2, sd2, hm, hrest⟩ := ih hmem2
            exact ⟨h1, o2, g2, sd2, List.mem_cons_of_mem _ hm, hrest⟩

/-- C10: every record produced while scanning a page carries that page's
number, the XObject key it was found under, the object and generation
numbers of the entry's indirect reference, and a non-negative Size equal
to the length of the stream's stored raw bytes. -/
theorem extractImagesFromPage_inv (ctx : Context) (p : Int)
    (images : List ImageInfo)
    (hok : extractImagesFromPage ctx p = Except.ok images) :
    images = [] ∨ ∃ xd, resolvedXObjectDict ctx p = some xd ∧
      images = loopXObjects ctx p xd := by
  unfold extractImagesFromPage at hok
  unfold resolvedXObjectDict
  cases hpd : ctx.pageDict p with
  | error e => simp [hpd] at hok
  | ok pd =>
    simp only [hpd] at hok ⊢
    cases hr : dictFind pd "Resources" with
    | none =>
      simp only [hr] at hok
      injection hok with hok
      exact Or.inl hok.symm
    | some resources =>
      simp only [hr] at hok ⊢
      cases hrd : resolveToDict ctx resources with
      | none =>
        simp only [hrd] at hok
        injection hok with hok
        exact Or.inl hok.symm
      | some resDict =>
        simp only [hrd] at hok ⊢
        cases hx : dictFind resDict "XObject" with
        | none =>
          simp only [hx] at hok
          injection hok with hok
          exact Or.inl hok.symm
        | some xObjectVal =>
          simp only [hx] at hok ⊢
          cases hxo : resolveToDict ctx xObjectVal with
          | none =>
            simp only [hxo] at hok
            injection hok with hok
            exact Or.inl hok.symm
          | some xObject =>
            simp only [hxo] at hok
            injection hok with hok
            exact Or.inr ⟨xObject, rfl, hok.symm⟩

/-- C10: every record produced while scanning a page carries that page's
number, the XObject key it was found under, the object and generation
numbers of the entry's indirect reference, and a non-negative Size equal
to the length of the stream's stored raw bytes. -/
theorem record_identity_invariant (ctx : Context) (pageNr : Int)
    (images : List ImageInfo) (img : ImageInfo)
    (hok : extractImagesFromPage ctx pageNr = Except.ok images)
    (hmem : img ∈ images) :
    img.PageNr = pageNr ∧ ∃ xd o g sd,
      resolvedXObjectDict ctx pageNr = some xd ∧
      (img.Name, Obj.indirectRef o g) ∈ xd ∧
      img.ObjectNr = o ∧ img.GenNr = g ∧
      ctx.dereferenceXObjectDict o g = Except.ok sd ∧ sd.image = true ∧
      img.Size = (sd.raw.length : Int) ∧ 0 ≤ img.Size := by
  rcases extractImagesFromPage_inv ctx pageNr images hok with hnil | ⟨xd, hxd, himgs⟩
  · subst hnil
    cases hmem
  · subst himgs
    obtain ⟨h1, o, g, sd, hm, ho, hg, hds, hi, hsize⟩ :=
      loopXObjects_mem ctx pageNr xd img hmem
    refine ⟨h1, xd, o, g, sd, hxd, hm, ho, hg, hds, hi, hsize, ?_⟩
    rw [hsize]
    exact Int.natCast_nonneg _

theorem record_identity_invariant_witness :
    (extractImageInfo 1 "Im1" 5 0 sdImage).PageNr = 1 ∧ ∃ xd o g sd,
      resolvedXObjectDict ctxA 1 = some xd ∧
      ((extractImageInfo 1 "Im1" 5 0 sdImage).Name, Obj.indirectRef o g) ∈ xd ∧
      (extractImageInfo 1 "Im1" 5 0 sdImage).ObjectNr = o ∧
      (extractImageInfo 1 "Im1" 5 0 sdImage).GenNr = g ∧
      ctxA.dereferenceXObjectDict o g = Except.ok sd ∧ sd.image = true ∧
      (extractImageInfo 1 "Im1" 5 0 sdImage).Size = (sd.raw.length : Int) ∧
      0 ≤ (extractImageInfo 1 "Im1" 5 0 sdImage).Size :=
  record_identity_invariant ctxA 1 [extractImageInfo 1 "Im1" 5 0 sdImage]
    (extractImageInfo 1 "Im1" 5 0 sdImage) rfl (List.mem_singleton.mpr rfl)
